import Mathlib

/-!
Shallow embedding of the electricity-demand prediction service
(`src/lib/model-predictor.py`, `src/lib/advanced-model-predictor.py`,
`src/lib/model-predictor-simple.py`) and proofs about its behaviour.

Conventions of the embedding:
* calendar dates are day numbers (`ℤ`); `datetime.now()` at day granularity is
  an explicit `today : ℤ` parameter, and `(a - b).days` is `a - b`;
* float arithmetic is exact rational arithmetic (`ℚ`);
* `np.sin`/`np.cos` of the seasonal phases and the datetime field extractors
  (`tm_yday`, `weekday()`, `isocalendar()`, ...) are abstract functions packed
  in an `Env`, since no claim depends on their concrete values;
* Python's process-wide `hash` for strings is an abstract `pyHash : String → ℤ`
  fixed for the process;
* each call of `np.random.normal(0, scale)` is a draw from an abstract
  provider applied to the scale (and a call index for series loops), so the
  scale used at every call site is visible in the embedding;
* exceptions are `Except String` carrying the Python exception message.
-/

set_option maxHeartbeats 1000000

namespace EDP

/-- Python's `round(x, 2)`: round `x` to 2 decimal places (ties are immaterial
to every claim; we use round-half-up on rationals). -/
def roundTo2 (x : ℚ) : ℚ := ((round (x * 100) : ℤ) : ℚ) / 100

/-- Ambient environment: datetime field extractors, the float values of the
seasonal `np.sin`/`np.cos` phases, and the process-wide Python string hash.
All abstract: no claim depends on their concrete values. -/
structure Env where
  today : ℤ
  yearOf : ℤ → ℤ
  monthOf : ℤ → ℤ
  dayOf : ℤ → ℤ
  weekdayOf : ℤ → ℤ
  doyOf : ℤ → ℤ
  isoWeekOf : ℤ → ℤ
  isoDayOf : ℤ → ℤ
  daysFromYearStart : ℤ → ℤ
  sinDoy : ℤ → ℚ
  cosDoy : ℤ → ℚ
  sinMon : ℤ → ℚ
  cosMon : ℤ → ℚ
  pyHash : String → ℤ

/-- Seed `state_seed = hash(state) % 1000` (Python `%` on a positive modulus is
`Int.emod`: always in `[0, 999]`). -/
def stateSeed (e : Env) (state : String) : ℤ := e.pyHash state % 1000

/-- Base usage `base_usage = 100 + (state_seed % 50)` as computed at every call site of
`model-predictor.py` and `advanced-model-predictor.py`. -/
def baseUsage (e : Env) (state : String) : ℤ := 100 + stateSeed e state % 50

/-- Seasonality `seasonality = 20 * np.sin(2 * np.pi * day_of_year / 365.25)` at a date. -/
def seasonalityOn (e : Env) (d : ℤ) : ℚ := 20 * e.sinDoy (e.doyOf d)

/-- Accumulator of `hash_string` in `model-predictor-simple.py` before the final `abs`:
`hash_val = ((hash_val << 5) - hash_val) + ord(char)` over the characters
(the `hash_val & hash_val` line is the identity on Python ints). -/
def hashStringAcc (s : String) : ℤ :=
  s.data.foldl (fun a c => (a * 2 ^ 5 - a) + (c.toNat : ℤ)) 0

/-- Hash `hash_string(s) = abs(hash_val)` from `model-predictor-simple.py`. -/
def hashString (s : String) : ℤ := |hashStringAcc s|

/-- Base usage `base_usage = 100 + (state_seed % 50)` of `model-predictor-simple.py`,
where `state_seed = hash_string(state)` (no `% 1000` in this file). -/
def baseUsageSimple (state : String) : ℤ := 100 + hashString state % 50

/-- The state-name mapping table of `_get_model_path`, applied by exact
string lookup (`state_mapping.get(state, state)`). -/
def normalizeState (s : String) : String :=
  if s = "Dadra & Nagar Haveli (DNH)" then "DNH"
  else if s = "Himachal Pradesh (HP)" then "HP"
  else if s = "Jammu & Kashmir (J&K)" then "J&K"
  else if s = "Madhya Pradesh (MP)" then "MP"
  else if s = "Puducherry (Pondy)" then "Pondy"
  else if s = "Uttar Pradesh (UP)" then "UP"
  else s

/-- Python's `str.lower()` on one ASCII character (every model-family name
is ASCII). -/
def lowerChar (c : Char) : Char :=
  if 65 ≤ c.toNat ∧ c.toNat ≤ 90 then Char.ofNat (c.toNat + 32) else c

/-- Python's `str.lower()` (ASCII range, which covers the family names). -/
def lowerStr (s : String) : String := ⟨s.data.map lowerChar⟩

/-- Path resolution `_get_model_path`: LSTM gets an `.h5` path, the other families get
`{state}_{family.lower()}_model.joblib` (`os.path.join` of the relative
components is directory, slash, filename). -/
def getModelPath (modelsDir state modelType : String) : String :=
  let modelState := normalizeState state
  if modelType = "LSTM" then
    modelsDir ++ "/" ++ modelState ++ "_lstm_model.h5"
  else
    modelsDir ++ "/" ++ modelState ++ "_" ++ lowerStr modelType ++ "_model.joblib"

/-- A Python object held by the model cache: either the LSTM placeholder
string `LSTM_MODEL_{state}`, or a deserialized joblib artifact, which may or
may not expose a `predict` method (mapping a feature vector to a float). -/
inductive PyObj where
  | pstr (s : String)
  | pmodel (pred : Option (List ℚ → ℚ))

/-- The artifact store as seen by one process: which paths exist
(`os.path.exists`) and what `joblib.load` yields there (value or the message
of the raised exception). -/
structure Store where
  pathExists : String → Bool
  load : String → Except String PyObj

/-- The per-process model cache, keyed by `f"{state}_{model_type}"`. -/
abbrev Cache := List (String × PyObj)

def cacheKey (state modelType : String) : String := state ++ "_" ++ modelType

/-- Loader `_load_model` of `model-predictor.py`: existence check first, then the
cache lookup, then the LSTM placeholder or `joblib.load`, memoizing the
result. Failures are the `FileNotFoundError` and wrapped `RuntimeError`
messages of the source. -/
def loadModel (st : Store) (cache : Cache) (modelsDir state modelType : String) :
    Except String (PyObj × Cache) :=
  let modelPath := getModelPath modelsDir state modelType
  if st.pathExists modelPath = false then
    .error ("Model not found: " ++ modelPath)
  else
    match cache.lookup (cacheKey state modelType) with
    | some m => .ok (m, cache)
    | none =>
      if modelType = "LSTM" then
        let m := PyObj.pstr ("LSTM_MODEL_" ++ state)
        .ok (m, (cacheKey state modelType, m) :: cache)
      else
        match st.load modelPath with
        | .ok m => .ok (m, (cacheKey state modelType, m) :: cache)
        | .error msg => .error ("Failed to load model " ++ modelPath ++ ": " ++ msg)

/-- Loader `_load_model` of `advanced-model-predictor.py`: same shape, but the LSTM
placeholder is only built when TensorFlow imported, and `joblib.load` only
runs when joblib imported; otherwise the `ImportError` is wrapped into the
`RuntimeError` message. -/
def loadModelAdv (st : Store) (tfAvailable jlAvailable : Bool) (cache : Cache)
    (modelsDir state modelType : String) : Except String (PyObj × Cache) :=
  let modelPath := getModelPath modelsDir state modelType
  if st.pathExists modelPath = false then
    .error ("Model not found: " ++ modelPath)
  else
    match cache.lookup (cacheKey state modelType) with
    | some m => .ok (m, cache)
    | none =>
      if modelType = "LSTM" then
        if tfAvailable = false then
          .error ("Failed to load model " ++ modelPath ++
            ": TensorFlow not available for LSTM models")
        else
          let m := PyObj.pstr ("LSTM_MODEL_" ++ state)
          .ok (m, (cacheKey state modelType, m) :: cache)
      else
        if jlAvailable = false then
          .error ("Failed to load model " ++ modelPath ++
            ": joblib not available for model loading")
        else
          match st.load modelPath with
          | .ok m => .ok (m, (cacheKey state modelType, m) :: cache)
          | .error msg => .error ("Failed to load model " ++ modelPath ++ ": " ++ msg)

/-- Feature builder `_prepare_features` of `model-predictor.py`: the 12-entry feature vector
in source order. -/
def prepareFeatures (e : Env) (state : String) (lat lon : ℚ) (d : ℤ) : List ℚ :=
  [(e.yearOf d : ℚ), (e.monthOf d : ℚ), (e.dayOf d : ℚ), (e.weekdayOf d : ℚ),
   (e.doyOf d : ℚ), lat, lon,
   e.sinDoy (e.doyOf d), e.cosDoy (e.doyOf d),
   e.sinMon (e.monthOf d), e.cosMon (e.monthOf d),
   (stateSeed e state : ℚ)]

/-- Feature builder `_prepare_features` of `advanced-model-predictor.py`: the same 12 features
plus ISO week, ISO weekday and days-since-year-start. -/
def prepareFeaturesAdv (e : Env) (state : String) (lat lon : ℚ) (d : ℤ) : List ℚ :=
  prepareFeatures e state lat lon d ++
  [(e.isoWeekOf d : ℚ), (e.isoDayOf d : ℚ), (e.daysFromYearStart d : ℚ)]

/-- Historical trend `trend = i * 0.1` in the loop (`i` is days-ago, from 90 down
to 1). -/
def histTrend (daysAgo : ℤ) : ℚ := (daysAgo : ℚ) * (1 / 10)

/-- Forecast trend `trend = i * 0.1` in the loop (`i` is days after the target
date, from 1 up to `days_ahead`). -/
def forecastTrend (daysAhead : ℤ) : ℚ := (daysAhead : ℚ) * (1 / 10)

/-- Historical trend `trend = (90 - i) * 0.1` of
`model-predictor-simple.py`. -/
def histTrendSimple (daysAgo : ℤ) : ℚ := ((90 - daysAgo : ℤ) : ℚ) * (1 / 10)

/-- Generator `_generate_historical_data` of `model-predictor.py`: for `i` in
`range(days, 0, -1)`, date `today - i`, usage
`base + trend + seasonality + noise(scale 5)`, floored at 0 and then rounded
to 2 decimals at append time. Iteration `k` is the `k`-th loop pass, so
`i = days - k`. -/
def generateHistoricalData (e : Env) (state : String) (days : ℕ)
    (gauss : ℕ → ℚ → ℚ) : List (ℤ × ℚ) :=
  (List.range days).map (fun (k : ℕ) =>
    let i : ℤ := (days : ℤ) - (k : ℤ)
    let date := e.today - i
    let usage := (baseUsage e state : ℚ) + histTrend i + seasonalityOn e date + gauss k 5
    (date, roundTo2 (max 0 usage)))

/-- Generator `_generate_forecast_data` of `model-predictor.py`: for `i` in
`range(1, days_ahead + 1)`, date `pred_date + i`, usage
`base + trend + seasonality + noise(scale 3)`, floored then rounded. -/
def generateForecastData (e : Env) (state : String) (predDate : ℤ)
    (daysAhead : ℕ) (gauss : ℕ → ℚ → ℚ) : List (ℤ × ℚ) :=
  (List.range daysAhead).map (fun (k : ℕ) =>
    let i : ℤ := (k : ℤ) + 1
    let date := predDate + i
    let usage := (baseUsage e state : ℚ) + forecastTrend i + seasonalityOn e date + gauss k 3
    (date, roundTo2 (max 0 usage)))

/-- Generator `_generate_historical_data` of `advanced-model-predictor.py`: identical
loop except `usage = max(0, round(usage, 2))` (round before floor). -/
def generateHistoricalDataAdv (e : Env) (state : String) (days : ℕ)
    (gauss : ℕ → ℚ → ℚ) : List (ℤ × ℚ) :=
  (List.range days).map (fun (k : ℕ) =>
    let i : ℤ := (days : ℤ) - (k : ℤ)
    let date := e.today - i
    let usage := (baseUsage e state : ℚ) + histTrend i + seasonalityOn e date + gauss k 5
    (date, max 0 (roundTo2 usage)))

/-- Generator `_generate_forecast_data` of `advanced-model-predictor.py`. -/
def generateForecastDataAdv (e : Env) (state : String) (predDate : ℤ)
    (daysAhead : ℕ) (gauss : ℕ → ℚ → ℚ) : List (ℤ × ℚ) :=
  (List.range daysAhead).map (fun (k : ℕ) =>
    let i : ℤ := (k : ℤ) + 1
    let date := predDate + i
    let usage := (baseUsage e state : ℚ) + forecastTrend i + seasonalityOn e date + gauss k 3
    (date, max 0 (roundTo2 usage)))

/-- The historical loop of `generate_prediction` in
`model-predictor-simple.py`: base from `hash_string`, trend `(90 - i) * 0.1`,
uniform noise `(random() - 0.5) * 10`, and `max(0, round(usage + 300, 2))`. -/
def generateHistoricalSimple (e : Env) (state : String) (rand : ℕ → ℚ) :
    List (ℤ × ℚ) :=
  (List.range 90).map (fun (k : ℕ) =>
    let i : ℤ := 90 - (k : ℤ)
    let date := e.today - i
    let usage := (baseUsageSimple state : ℚ) + histTrendSimple i +
      seasonalityOn e date + (rand k - 1 / 2) * 10
    (date, max 0 (roundTo2 (usage + 300))))

/-- The response dictionary assembled by `predict` (the `features_used` of a
response and `model_loaded` of the advanced variant carry no claim content
beyond the vector itself). -/
structure Response where
  predictedUsage : ℚ
  modelType : String
  historicalData : List (ℤ × ℚ)
  forecastData : List (ℤ × ℚ)
  featuresUsed : List ℚ

/-- The dispatch block of `ModelPredictor.predict`: the family-specific
computation of `predicted_usage` (before the final `round(.., 2)`), or the
`ValueError` message for an unrecognized family. `gaussP scale` is the draw
`np.random.normal(0, scale)` of that branch. -/
def pointPrediction (e : Env) (state : String) (predDate : ℤ) (model : PyObj)
    (features : List ℚ) (modelType : String) (gaussP : ℚ → ℚ) : Except String ℚ :=
  if modelType = "ARIMA" then
    .ok (max 0 ((baseUsage e state : ℚ) + 1 / 10 + seasonalityOn e predDate + gaussP 5))
  else if modelType = "XGBoost" then
    match model with
    | .pmodel (some f) => .ok (max 0 (f features))
    | _ => .ok (max 0 ((baseUsage e state : ℚ) + gaussP 10))
  else if modelType = "LSTM" then
    .ok (max 0 ((baseUsage e state : ℚ) + 1 / 10 + seasonalityOn e predDate + gaussP 3))
  else if modelType = "Prophet" then
    .ok (max 0 ((baseUsage e state : ℚ) + 1 / 10 + seasonalityOn e predDate + gaussP 4))
  else
    .error ("Unsupported model type: " ++ modelType)

/-- Method `ModelPredictor.predict`: load (or fetch cached) model, build features,
dispatch, then synthesize the 90-day historical series and the
`max(1, days_ahead)`-day forecast series; any exception becomes the
`RuntimeError` message `Prediction failed: ...`. -/
def predict (e : Env) (st : Store) (cache : Cache) (modelsDir state : String)
    (lat lon : ℚ) (predDate : ℤ) (modelType : String)
    (gaussP : ℚ → ℚ) (gaussH gaussF : ℕ → ℚ → ℚ) :
    Except String (Response × Cache) :=
  match loadModel st cache modelsDir state modelType with
  | .error msg => .error ("Prediction failed: " ++ msg)
  | .ok (model, cache') =>
    match pointPrediction e state predDate model
        (prepareFeatures e state lat lon predDate) modelType gaussP with
    | .error msg => .error ("Prediction failed: " ++ msg)
    | .ok pu =>
      .ok ({ predictedUsage := roundTo2 pu,
             modelType := modelType,
             historicalData := generateHistoricalData e state 90 gaussH,
             forecastData := generateForecastData e state predDate
               (max 1 (predDate - e.today)).toNat gaussF,
             featuresUsed := prepareFeatures e state lat lon predDate }, cache')

/-- The dispatch block of `AdvancedModelPredictor.predict`: the same
branches, but each already applies `max(0, round(.., 2))`. -/
def pointPredictionAdv (e : Env) (state : String) (predDate : ℤ) (model : PyObj)
    (features : List ℚ) (modelType : String) (gaussP : ℚ → ℚ) : Except String ℚ :=
  if modelType = "ARIMA" then
    .ok (max 0 (roundTo2 ((baseUsage e state : ℚ) + 1 / 10 + seasonalityOn e predDate + gaussP 5)))
  else if modelType = "XGBoost" then
    match model with
    | .pmodel (some f) => .ok (max 0 (roundTo2 (f features)))
    | _ => .ok (max 0 (roundTo2 ((baseUsage e state : ℚ) + gaussP 10)))
  else if modelType = "LSTM" then
    .ok (max 0 (roundTo2 ((baseUsage e state : ℚ) + 1 / 10 + seasonalityOn e predDate + gaussP 3)))
  else if modelType = "Prophet" then
    .ok (max 0 (roundTo2 ((baseUsage e state : ℚ) + 1 / 10 + seasonalityOn e predDate + gaussP 4)))
  else
    .error ("Unsupported model type: " ++ modelType)

/-- Method `AdvancedModelPredictor.predict`. -/
def predictAdv (e : Env) (st : Store) (tfAvailable jlAvailable : Bool)
    (cache : Cache) (modelsDir state : String) (lat lon : ℚ) (predDate : ℤ)
    (modelType : String) (gaussP : ℚ → ℚ) (gaussH gaussF : ℕ → ℚ → ℚ) :
    Except String (Response × Cache) :=
  match loadModelAdv st tfAvailable jlAvailable cache modelsDir state modelType with
  | .error msg => .error ("Prediction failed: " ++ msg)
  | .ok (model, cache') =>
    match pointPredictionAdv e state predDate model
        (prepareFeaturesAdv e state lat lon predDate) modelType gaussP with
    | .error msg => .error ("Prediction failed: " ++ msg)
    | .ok pu =>
      .ok ({ predictedUsage := pu,
             modelType := modelType,
             historicalData := generateHistoricalDataAdv e state 90 gaussH,
             forecastData := generateForecastDataAdv e state predDate
               (max 1 (predDate - e.today)).toNat gaussF,
             featuresUsed := prepareFeaturesAdv e state lat lon predDate }, cache')

/-- What the CLI boundary of `advanced-model-predictor.py` emits: either the
response JSON or a single error object. -/
inductive CliOut where
  | success (r : Response)
  | failure (msg : String)

/-- CLI entry `main` of `advanced-model-predictor.py` after JSON-argument parsing: a
fresh predictor (empty cache, models dir `models`) serves the request; on
success the response is printed and the process exits 0, on any exception a
single `error` object is printed and the process exits 1. -/
def runMainAdv (e : Env) (st : Store) (tfAvailable jlAvailable : Bool)
    (state : String) (lat lon : ℚ) (predDate : ℤ) (modelType : String)
    (gaussP : ℚ → ℚ) (gaussH gaussF : ℕ → ℚ → ℚ) : CliOut × ℕ :=
  match predictAdv e st tfAvailable jlAvailable [] "models" state lat lon predDate
      modelType gaussP gaussH gaussF with
  | .ok (r, _) => (.success r, 0)
  | .error msg => (.failure msg, 1)

/-- Modelled from the spec: the fallback single-point formula as C2 words it,
with trend offset 0 relative to the target date
(`baseUsage + 0*0.1 + seasonality + noise`, floored and rounded). -/
def specFallbackPoint (e : Env) (state : String) (predDate : ℤ) (noise : ℚ) : ℚ :=
  roundTo2 (max 0 ((baseUsage e state : ℚ) + 0 * (1 / 10) + seasonalityOn e predDate + noise))

/-- Modelled from the spec: the historical trend term as C5 words it
(`trendOffsetDays * 0.1` with `trendOffsetDays = -daysAgo`). -/
def specHistTrend (daysAgo : ℤ) : ℚ := ((-daysAgo : ℤ) : ℚ) * (1 / 10)

/-- A store on which every path exists and every load yields a model object
without a `predict` attribute. -/
def stAllOk : Store := ⟨fun _ => true, fun _ => .ok (PyObj.pmodel none)⟩

/-- A store on which no path exists (e.g. after the artifact was removed). -/
def stNoFile : Store := ⟨fun _ => false, fun _ => .ok (PyObj.pmodel none)⟩

/-- A concrete environment with all abstract fields zero; used for witnesses
and counterexamples. -/
def envZ : Env :=
  { today := 0, yearOf := fun _ => 0, monthOf := fun _ => 0, dayOf := fun _ => 0,
    weekdayOf := fun _ => 0, doyOf := fun _ => 0, isoWeekOf := fun _ => 0,
    isoDayOf := fun _ => 0, daysFromYearStart := fun _ => 0,
    sinDoy := fun _ => 0, cosDoy := fun _ => 0, sinMon := fun _ => 0,
    cosMon := fun _ => 0, pyHash := fun _ => 0 }

/-- Zero normal draw at every scale. -/
def gz : ℚ → ℚ := fun _ => 0

/-- Zero normal draw at every loop index and scale. -/
def gzz : ℕ → ℚ → ℚ := fun _ _ => 0

/-- A store whose paths all exist but on which every deserialization raises. -/
def stBadLoad : Store := ⟨fun _ => true, fun _ => .error "corrupt file"⟩

/-- The `predicted_usage` field of a successful result (0 on error); used to
observe concrete predictions. -/
def puOf (x : Except String (Response × Cache)) : ℚ :=
  match x with
  | .ok (r, _) => r.predictedUsage
  | .error _ => 0

/-- The forecast dates of a successful result ([] on error). -/
def forecastDatesOf (x : Except String (Response × Cache)) : List ℤ :=
  match x with
  | .ok (r, _) => r.forecastData.map Prod.fst
  | .error _ => []


/-! ## Theorems -/

theorem roundTo2_idem (x : ℚ) : roundTo2 (roundTo2 x) = roundTo2 x := by
  have h : (((round (x * 100) : ℤ) : ℚ) / 100) * 100 = ((round (x * 100) : ℤ) : ℚ) := by
    field_simp
  simp [roundTo2, h, round_intCast]

theorem roundTo2_mono {x y : ℚ} (h : x ≤ y) : roundTo2 x ≤ roundTo2 y := by
  unfold roundTo2
  have h2 : round (x * 100) ≤ round (y * 100) := by
    rw [round_eq, round_eq]
    exact Int.floor_mono (by linarith)
  have h3 : ((round (x * 100) : ℤ) : ℚ) ≤ ((round (y * 100) : ℤ) : ℚ) := by exact_mod_cast h2
  linarith

theorem roundTo2_zero : roundTo2 0 = 0 := by
  simp [roundTo2]

theorem roundTo2_nonneg {x : ℚ} (h : 0 ≤ x) : 0 ≤ roundTo2 x := by
  calc (0 : ℚ) = roundTo2 0 := roundTo2_zero.symm
    _ ≤ roundTo2 x := roundTo2_mono h

/-- Commutation `max(0, round(x, 2)) = round(max(0, x), 2)`: flooring at zero and rounding
to 2 decimals commute, so the two predictors' different orders agree. -/
theorem roundTo2_max_zero (x : ℚ) : max 0 (roundTo2 x) = roundTo2 (max 0 x) := by
  rcases le_total 0 x with h | h
  · rw [max_eq_right h, max_eq_right (roundTo2_nonneg h)]
  · have h1 : roundTo2 x ≤ 0 := roundTo2_zero ▸ roundTo2_mono h
    rw [max_eq_left h1, max_eq_left h, roundTo2_zero]

theorem normalizeState_fixed (x : String)
    (h1 : x ≠ "Dadra & Nagar Haveli (DNH)") (h2 : x ≠ "Himachal Pradesh (HP)")
    (h3 : x ≠ "Jammu & Kashmir (J&K)") (h4 : x ≠ "Madhya Pradesh (MP)")
    (h5 : x ≠ "Puducherry (Pondy)") (h6 : x ≠ "Uttar Pradesh (UP)") :
    normalizeState x = x := by
  unfold normalizeState
  rw [if_neg h1, if_neg h2, if_neg h3, if_neg h4, if_neg h5, if_neg h6]

/-- C9: the Region Name Normalizer is idempotent: `normalize(normalize(x)) =
normalize(x)` for every label; every label outside the six-entry table is a
fixed point, and each of the six produced codes (DNH, HP, J&K, MP, Pondy, UP)
is itself a fixed point. -/
theorem regionNormalizer_idempotent :
    (∀ x : String, normalizeState (normalizeState x) = normalizeState x) ∧
    (normalizeState "DNH" = "DNH" ∧ normalizeState "HP" = "HP" ∧
     normalizeState "J&K" = "J&K" ∧ normalizeState "MP" = "MP" ∧
     normalizeState "Pondy" = "Pondy" ∧ normalizeState "UP" = "UP") ∧
    (∀ x : String,
      x ≠ "Dadra & Nagar Haveli (DNH)" → x ≠ "Himachal Pradesh (HP)" →
      x ≠ "Jammu & Kashmir (J&K)" → x ≠ "Madhya Pradesh (MP)" →
      x ≠ "Puducherry (Pondy)" → x ≠ "Uttar Pradesh (UP)" →
      normalizeState x = x) := by
  refine ⟨?_, ⟨by decide, by decide, by decide, by decide, by decide, by decide⟩,
    fun x h1 h2 h3 h4 h5 h6 => normalizeState_fixed x h1 h2 h3 h4 h5 h6⟩
  intro x
  by_cases h1 : x = "Dadra & Nagar Haveli (DNH)"
  · subst h1; decide
  by_cases h2 : x = "Himachal Pradesh (HP)"
  · subst h2; decide
  by_cases h3 : x = "Jammu & Kashmir (J&K)"
  · subst h3; decide
  by_cases h4 : x = "Madhya Pradesh (MP)"
  · subst h4; decide
  by_cases h5 : x = "Puducherry (Pondy)"
  · subst h5; decide
  by_cases h6 : x = "Uttar Pradesh (UP)"
  · subst h6; decide
  rw [normalizeState_fixed x h1 h2 h3 h4 h5 h6]
  exact normalizeState_fixed x h1 h2 h3 h4 h5 h6

/-- Witness for C9 at a concrete unmapped label. -/
theorem regionNormalizer_idempotent_witness :
    normalizeState (normalizeState "Maharashtra") = normalizeState "Maharashtra" ∧
    normalizeState "Maharashtra" = "Maharashtra" :=
  ⟨regionNormalizer_idempotent.1 "Maharashtra",
   regionNormalizer_idempotent.2.2 "Maharashtra" (by decide) (by decide) (by decide)
     (by decide) (by decide) (by decide)⟩

/-- C10: `baseUsage(region) = 100 + ((regionHash mod 1000) mod 50)` is an
integer in `[100, 149]`; in `model-predictor-simple.py` (which omits the
`% 1000`) the same formula holds because `(h mod 1000) mod 50 = h mod 50`;
determinism per region string holds because both are pure functions of the
process hash value; and the noise-free part of every synthesized usage value
is bounded below by `100 + trend + seasonality`. -/
theorem baseUsage_bounds :
    (∀ (e : Env) (s : String),
      100 ≤ baseUsage e s ∧ baseUsage e s ≤ 149 ∧
      baseUsage e s = 100 + e.pyHash s % 1000 % 50) ∧
    (∀ s : String,
      100 ≤ baseUsageSimple s ∧ baseUsageSimple s ≤ 149 ∧
      baseUsageSimple s = 100 + hashString s % 1000 % 50) ∧
    (∀ (e : Env) (s : String) (t sea : ℚ),
      100 + t + sea ≤ (baseUsage e s : ℚ) + t + sea) := by
  have hmod : ∀ n : ℤ, 0 ≤ n % 50 ∧ n % 50 ≤ 49 := by
    intro n
    constructor
    · exact Int.emod_nonneg n (by norm_num)
    · have := Int.emod_lt_of_pos n (show (0 : ℤ) < 50 by norm_num)
      omega
  have hbase : ∀ (e : Env) (s : String), 100 ≤ baseUsage e s ∧ baseUsage e s ≤ 149 := by
    intro e s
    have := hmod ((stateSeed e s))
    unfold baseUsage
    omega
  refine ⟨fun e s => ⟨(hbase e s).1, (hbase e s).2, rfl⟩, fun s => ?_, fun e s t sea => ?_⟩
  · have h1000 : hashString s % 1000 % 50 = hashString s % 50 :=
      Int.emod_emod_of_dvd _ (by norm_num)
    have hb := hmod (hashString s)
    unfold baseUsageSimple
    rw [h1000]
    exact ⟨by linarith [hb.1], by linarith [hb.2], rfl⟩
  · have h := (hbase e s).1
    have hq : (100 : ℚ) ≤ (baseUsage e s : ℚ) := by exact_mod_cast h
    linarith

/-- C3 (corrected): the first successful load for a (region, family) key is
memoized, and a later `get` for a cached key skips deserialization: it
returns the cached handle unchanged and its result is independent of the
store's `load` behaviour. But the existence check still runs on every call
(it precedes the cache lookup), so the result of a later call does depend on
whether the artifact file still exists. -/
theorem modelCache_memoization :
    (∀ (st : Store) (cache : Cache) (dir state mt : String) (m : PyObj),
      cache.lookup (cacheKey state mt) = some m →
      st.pathExists (getModelPath dir state mt) = true →
      loadModel st cache dir state mt = .ok (m, cache)) ∧
    (∀ (st st' : Store) (cache : Cache) (dir state mt : String) (m : PyObj),
      cache.lookup (cacheKey state mt) = some m →
      st.pathExists = st'.pathExists →
      loadModel st cache dir state mt = loadModel st' cache dir state mt) ∧
    (∀ (st : Store) (cache : Cache) (dir state mt : String) (m : PyObj),
      cache.lookup (cacheKey state mt) = none → mt ≠ "LSTM" →
      st.pathExists (getModelPath dir state mt) = true →
      st.load (getModelPath dir state mt) = .ok m →
      loadModel st cache dir state mt = .ok (m, (cacheKey state mt, m) :: cache)) := by
  refine ⟨?_, ?_, ?_⟩
  · intro st cache dir state mt m hc hex
    simp [loadModel, hex, hc]
  · intro st st' cache dir state mt m hc hpe
    cases hex : st.pathExists (getModelPath dir state mt) with
    | false => simp [loadModel, ← hpe, hex]
    | true => simp [loadModel, ← hpe, hex, hc]
  · intro st cache dir state mt m hc hmt hex hload
    simp [loadModel, hex, hc, hmt, hload]

/-- Witness for C3 at concrete stores: a cache hit is returned as-is, a cache
hit is insensitive to the store's load function, and a first load is
memoized. -/
theorem modelCache_memoization_witness :
    loadModel stAllOk [(cacheKey "X" "ARIMA", PyObj.pstr "h")] "models" "X" "ARIMA"
      = .ok (PyObj.pstr "h", [(cacheKey "X" "ARIMA", PyObj.pstr "h")]) ∧
    loadModel stAllOk [(cacheKey "X" "ARIMA", PyObj.pstr "h")] "models" "X" "ARIMA"
      = loadModel stBadLoad [(cacheKey "X" "ARIMA", PyObj.pstr "h")] "models" "X" "ARIMA" ∧
    loadModel stAllOk [] "models" "X" "ARIMA"
      = .ok (PyObj.pmodel none, [(cacheKey "X" "ARIMA", PyObj.pmodel none)]) :=
  ⟨modelCache_memoization.1 stAllOk _ "models" "X" "ARIMA" (PyObj.pstr "h") rfl rfl,
   modelCache_memoization.2.1 stAllOk stBadLoad _ "models" "X" "ARIMA" (PyObj.pstr "h")
     rfl rfl,
   modelCache_memoization.2.2 stAllOk [] "models" "X" "ARIMA" (PyObj.pmodel none)
     rfl (by decide) rfl rfl⟩

/-- C3 counterexample: load and memoize an artifact, then remove the file;
the next `get` for the same cached key fails with the ArtifactNotFound
message instead of returning the cached handle, so the result does depend on
whether the artifact still exists on the store. -/
theorem modelCache_counterexample :
    loadModel stAllOk [] "models" "Delhi" "ARIMA"
      = .ok (PyObj.pmodel none, [(cacheKey "Delhi" "ARIMA", PyObj.pmodel none)]) ∧
    loadModel stNoFile [(cacheKey "Delhi" "ARIMA", PyObj.pmodel none)] "models" "Delhi" "ARIMA"
      = .error "Model not found: models/Delhi_arima_model.joblib" ∧
    (Except.error "Model not found: models/Delhi_arima_model.joblib"
      ≠ (Except.ok (PyObj.pmodel none, [(cacheKey "Delhi" "ARIMA", PyObj.pmodel none)]) :
          Except String (PyObj × Cache))) :=
  ⟨rfl, rfl, fun h => Except.noConfusion h⟩

/-- C7 (corrected): in `ModelPredictor` an existing LSTM artifact is never
deserialized; the cache substitutes the placeholder `LSTM_MODEL_{state}`
unconditionally, so no ArtifactLoadError can arise, and prediction for LSTM
routes to the fallback formula without inspecting the handle. In
`AdvancedModelPredictor` the same holds only when TensorFlow is importable;
when it is not, the load raises (see the counterexample). -/
theorem lstmPlaceholder :
    (∀ (st : Store) (cache : Cache) (dir state : String),
      cache.lookup (cacheKey state "LSTM") = none →
      st.pathExists (getModelPath dir state "LSTM") = true →
      loadModel st cache dir state "LSTM"
        = .ok (PyObj.pstr ("LSTM_MODEL_" ++ state),
            (cacheKey state "LSTM", PyObj.pstr ("LSTM_MODEL_" ++ state)) :: cache)) ∧
    (∀ (st : Store) (jl : Bool) (cache : Cache) (dir state : String),
      cache.lookup (cacheKey state "LSTM") = none →
      st.pathExists (getModelPath dir state "LSTM") = true →
      loadModelAdv st true jl cache dir state "LSTM"
        = .ok (PyObj.pstr ("LSTM_MODEL_" ++ state),
            (cacheKey state "LSTM", PyObj.pstr ("LSTM_MODEL_" ++ state)) :: cache)) ∧
    (∀ (e : Env) (st : Store) (cache : Cache) (dir state : String) (lat lon : ℚ)
       (predDate : ℤ) (gaussP : ℚ → ℚ) (gaussH gaussF : ℕ → ℚ → ℚ)
       (m : PyObj) (c' : Cache),
      loadModel st cache dir state "LSTM" = .ok (m, c') →
      predict e st cache dir state lat lon predDate "LSTM" gaussP gaussH gaussF
        = .ok ({ predictedUsage := roundTo2 (max 0 ((baseUsage e state : ℚ) + 1 / 10 +
                   seasonalityOn e predDate + gaussP 3)),
                 modelType := "LSTM",
                 historicalData := generateHistoricalData e state 90 gaussH,
                 forecastData := generateForecastData e state predDate
                   (max 1 (predDate - e.today)).toNat gaussF,
                 featuresUsed := prepareFeatures e state lat lon predDate }, c')) := by
  refine ⟨?_, ?_, ?_⟩
  · intro st cache dir state hc hex
    simp [loadModel, hex, hc]
  · intro st jl cache dir state hc hex
    simp [loadModelAdv, hex, hc]
  · intro e st cache dir state lat lon predDate gaussP gaussH gaussF m c' hl
    unfold predict
    rw [hl]
    rfl

/-- Witness for C7 at a concrete store: both caches build the tagged
placeholder, and LSTM prediction is the fallback value. -/
theorem lstmPlaceholder_witness :
    loadModel stAllOk [] "models" "X" "LSTM"
      = .ok (PyObj.pstr "LSTM_MODEL_X", [(cacheKey "X" "LSTM", PyObj.pstr "LSTM_MODEL_X")]) ∧
    loadModelAdv stAllOk true true [] "models" "X" "LSTM"
      = .ok (PyObj.pstr "LSTM_MODEL_X", [(cacheKey "X" "LSTM", PyObj.pstr "LSTM_MODEL_X")]) ∧
    predict envZ stAllOk [] "models" "X" 0 0 7 "LSTM" gz gzz gzz
      = .ok ({ predictedUsage := roundTo2 (max 0 ((baseUsage envZ "X" : ℚ) + 1 / 10 +
                 seasonalityOn envZ 7 + gz 3)),
               modelType := "LSTM",
               historicalData := generateHistoricalData envZ "X" 90 gzz,
               forecastData := generateForecastData envZ "X" 7 (max 1 (7 - envZ.today)).toNat gzz,
               featuresUsed := prepareFeatures envZ "X" 0 0 7 },
             [(cacheKey "X" "LSTM", PyObj.pstr "LSTM_MODEL_X")]) :=
  ⟨lstmPlaceholder.1 stAllOk [] "models" "X" rfl rfl,
   lstmPlaceholder.2.1 stAllOk true [] "models" "X" rfl rfl,
   lstmPlaceholder.2.2 envZ stAllOk [] "models" "X" 0 0 7 gz gzz gzz
     (PyObj.pstr "LSTM_MODEL_X") [(cacheKey "X" "LSTM", PyObj.pstr "LSTM_MODEL_X")] rfl⟩

/-- C7 counterexample: in `advanced-model-predictor.py`, when TensorFlow is
not importable, an existing LSTM artifact path still yields an
ArtifactLoadError-style RuntimeError rather than the placeholder. -/
theorem lstmPlaceholder_counterexample :
    loadModelAdv stAllOk false true [] "models" "Delhi" "LSTM"
      = .error
        "Failed to load model models/Delhi_lstm_model.h5: TensorFlow not available for LSTM models" :=
  rfl

/-- C5 (corrected): the historical trend term in `model-predictor.py` is
`+0.1 * daysAgo` — the negation of the specified `trendOffsetDays * 0.1` with
`trendOffsetDays = -daysAgo` — so it strictly decreases (not increases) as
dates approach today; in `model-predictor-simple.py` it is
`(90 - daysAgo) * 0.1`, i.e. the specified trend shifted by the constant +9
(increasing toward today, but 9 larger than specified). -/
theorem historicalTrend_direction :
    (∀ k : ℤ, histTrend k = -specHistTrend k) ∧
    (∀ k1 k2 : ℤ, k1 < k2 → histTrend k1 < histTrend k2) ∧
    (∀ k : ℤ, histTrendSimple k = specHistTrend k + 9) := by
  refine ⟨?_, ?_, ?_⟩
  · intro k
    unfold histTrend specHistTrend
    push_cast
    ring
  · intro k1 k2 h
    unfold histTrend
    have hq : (k1 : ℚ) < (k2 : ℚ) := by exact_mod_cast h
    linarith
  · intro k
    unfold histTrendSimple specHistTrend
    push_cast
    ring

/-- Witness for C5 at days-ago 1 and 2. -/
theorem historicalTrend_direction_witness :
    histTrend 1 = -specHistTrend 1 ∧ histTrend 1 < histTrend 2 ∧
    histTrendSimple 1 = specHistTrend 1 + 9 :=
  ⟨historicalTrend_direction.1 1, historicalTrend_direction.2.1 1 2 (by decide),
   historicalTrend_direction.2.2 1⟩

/-- C5 counterexample: one day before today, the trend term is +0.1 in
`model-predictor.py` and +8.9 in `model-predictor-simple.py`, not the claimed
-0.1. -/
theorem historicalTrend_counterexample :
    histTrend 1 = 1 / 10 ∧ specHistTrend 1 = -(1 / 10) ∧
    histTrendSimple 1 = 89 / 10 ∧ ((1 : ℚ) / 10 ≠ -(1 / 10)) ∧
    ((89 : ℚ) / 10 ≠ -(1 / 10)) := by
  refine ⟨by norm_num [histTrend], by norm_num [specHistTrend],
    by norm_num [histTrendSimple], by norm_num, by norm_num⟩

theorem pointPrediction_ok_max (e : Env) (state : String) (predDate : ℤ)
    (m : PyObj) (fts : List ℚ) (mt : String) (gaussP : ℚ → ℚ) (pu : ℚ)
    (h : pointPrediction e state predDate m fts mt gaussP = .ok pu) :
    ∃ v : ℚ, pu = max 0 v := by
  unfold pointPrediction at h
  split_ifs at h <;>
    first
      | exact Except.noConfusion h
      | exact ⟨_, (Except.ok.inj h).symm⟩
      | (rcases m with s0 | (_ | f) <;> exact ⟨_, (Except.ok.inj h).symm⟩)

/-- Inversion of a successful `predict`: the response fields in terms of the
generators and the feature builder. -/
theorem predict_ok_fields (e : Env) (st : Store) (cache : Cache)
    (dir state : String) (lat lon : ℚ) (predDate : ℤ) (mt : String)
    (gaussP : ℚ → ℚ) (gaussH gaussF : ℕ → ℚ → ℚ) (r : Response) (c' : Cache)
    (h : predict e st cache dir state lat lon predDate mt gaussP gaussH gaussF
      = .ok (r, c')) :
    (∃ v : ℚ, r.predictedUsage = roundTo2 (max 0 v)) ∧
    r.modelType = mt ∧
    r.historicalData = generateHistoricalData e state 90 gaussH ∧
    r.forecastData = generateForecastData e state predDate
      (max 1 (predDate - e.today)).toNat gaussF ∧
    r.featuresUsed = prepareFeatures e state lat lon predDate := by
  unfold predict at h
  cases hL : loadModel st cache dir state mt with
  | error msg =>
    rw [hL] at h
    simp at h
  | ok mc =>
    obtain ⟨m, c⟩ := mc
    rw [hL] at h
    dsimp only [] at h
    cases hP : pointPrediction e state predDate m
        (prepareFeatures e state lat lon predDate) mt gaussP with
    | error msg =>
      rw [hP] at h
      simp at h
    | ok pu =>
      rw [hP] at h
      obtain ⟨v, hv⟩ := pointPrediction_ok_max e state predDate m _ mt gaussP pu hP
      simp only [Except.ok.injEq, Prod.mk.injEq] at h
      obtain ⟨hr, hc⟩ := h
      subst hr
      exact ⟨⟨v, by simp only []; rw [hv]⟩, rfl, rfl, rfl, rfl⟩

/-- Shape of the 90-point historical series of `model-predictor.py`: length,
consecutive strictly-increasing dates, last date yesterday. -/
theorem generateHistoricalData_shape (e : Env) (state : String) (g : ℕ → ℚ → ℚ) :
    (generateHistoricalData e state 90 g).length = 90 ∧
    List.Chain' (fun a b : ℤ × ℚ => a.1 + 1 = b.1)
      (generateHistoricalData e state 90 g) ∧
    ((generateHistoricalData e state 90 g).map Prod.fst).getLast?
      = some (e.today - 1) := by
  unfold generateHistoricalData
  refine ⟨by simp, ?_, ?_⟩
  · rw [List.chain'_map]
    have h : (90 : ℕ) = 89 + 1 := rfl
    rw [h, List.chain'_range_succ]
    intro m hm
    simp only []
    push_cast
    ring
  · rw [List.map_map]
    have h90 : List.range 90 = List.range 89 ++ [89] := List.range_succ 89
    rw [h90, List.map_append]
    simp only [List.map_cons, List.map_nil]
    rw [List.getLast?_concat]
    simp only [Function.comp]
    norm_num

/-- Shape of the 90-point historical series of
`advanced-model-predictor.py`. -/
theorem generateHistoricalDataAdv_shape (e : Env) (state : String)
    (g : ℕ → ℚ → ℚ) :
    (generateHistoricalDataAdv e state 90 g).length = 90 ∧
    List.Chain' (fun a b : ℤ × ℚ => a.1 + 1 = b.1)
      (generateHistoricalDataAdv e state 90 g) ∧
    ((generateHistoricalDataAdv e state 90 g).map Prod.fst).getLast?
      = some (e.today - 1) := by
  unfold generateHistoricalDataAdv
  refine ⟨by simp, ?_, ?_⟩
  · rw [List.chain'_map]
    have h : (90 : ℕ) = 89 + 1 := rfl
    rw [h, List.chain'_range_succ]
    intro m hm
    simp only []
    push_cast
    ring
  · rw [List.map_map]
    have h90 : List.range 90 = List.range 89 ++ [89] := List.range_succ 89
    rw [h90, List.map_append]
    simp only [List.map_cons, List.map_nil]
    rw [List.getLast?_concat]
    simp only [Function.comp]
    norm_num

/-- C6: for every successful request, the historical series has exactly 90
points, its dates are consecutive (hence strictly increasing), and the last
point is dated the day before today; likewise for the advanced predictor's
generator. -/
theorem historicalSeries_shape :
    (∀ (e : Env) (st : Store) (cache : Cache) (dir state : String)
       (lat lon : ℚ) (predDate : ℤ) (mt : String) (gaussP : ℚ → ℚ)
       (gaussH gaussF : ℕ → ℚ → ℚ) (r : Response) (c' : Cache),
      predict e st cache dir state lat lon predDate mt gaussP gaussH gaussF
        = .ok (r, c') →
      r.historicalData.length = 90 ∧
      List.Chain' (fun a b : ℤ × ℚ => a.1 + 1 = b.1) r.historicalData ∧
      (r.historicalData.map Prod.fst).getLast? = some (e.today - 1)) ∧
    (∀ (e : Env) (state : String) (g : ℕ → ℚ → ℚ),
      (generateHistoricalDataAdv e state 90 g).length = 90 ∧
      List.Chain' (fun a b : ℤ × ℚ => a.1 + 1 = b.1)
        (generateHistoricalDataAdv e state 90 g) ∧
      ((generateHistoricalDataAdv e state 90 g).map Prod.fst).getLast?
        = some (e.today - 1)) := by
  constructor
  · intro e st cache dir state lat lon predDate mt gaussP gaussH gaussF r c' h
    obtain ⟨-, -, hh, -, -⟩ :=
      predict_ok_fields e st cache dir state lat lon predDate mt gaussP gaussH gaussF r c' h
    rw [hh]
    exact generateHistoricalData_shape e state gaussH
  · exact generateHistoricalDataAdv_shape

/-- Witness for C6 on a concrete successful request. -/
theorem historicalSeries_shape_witness :
    ∃ (r : Response) (c' : Cache),
      predict envZ stAllOk [] "models" "X" 0 0 3 "ARIMA" gz gzz gzz = .ok (r, c') ∧
      r.historicalData.length = 90 ∧
      (r.historicalData.map Prod.fst).getLast? = some (envZ.today - 1) :=
  ⟨_, _, rfl,
   (historicalSeries_shape.1 envZ stAllOk [] "models" "X" 0 0 3 "ARIMA" gz gzz gzz
      _ _ rfl).1,
   (historicalSeries_shape.1 envZ stAllOk [] "models" "X" 0 0 3 "ARIMA" gz gzz gzz
      _ _ rfl).2.2⟩

/-- C2 (corrected): for ARIMA, LSTM and Prophet both predictors never run
inference on the loaded artifact — whenever the load step succeeds, the
response is a pure function of region, date and the noise draw, with noise
scales 5, 3 and 4 respectively — but the trend term added to
`baseUsage + seasonality + noise` is the constant 0.1 (as if the offset were
one day), not `0 * 0.1 = 0`; the result is floored at 0 and rounded to 2
decimals (`ModelPredictor` rounds the floored value, the advanced variant
floors the rounded value; the two orders agree by `roundTo2_max_zero`). -/
theorem fallbackFamilies_point :
    (∀ (e : Env) (st : Store) (cache : Cache) (dir state : String) (lat lon : ℚ)
       (predDate : ℤ) (gaussP : ℚ → ℚ) (gaussH gaussF : ℕ → ℚ → ℚ)
       (m : PyObj) (c' : Cache),
      loadModel st cache dir state "ARIMA" = .ok (m, c') →
      predict e st cache dir state lat lon predDate "ARIMA" gaussP gaussH gaussF
        = .ok ({ predictedUsage := roundTo2 (max 0 ((baseUsage e state : ℚ) + 1 / 10 +
                   seasonalityOn e predDate + gaussP 5)),
                 modelType := "ARIMA",
                 historicalData := generateHistoricalData e state 90 gaussH,
                 forecastData := generateForecastData e state predDate
                   (max 1 (predDate - e.today)).toNat gaussF,
                 featuresUsed := prepareFeatures e state lat lon predDate }, c')) ∧
    (∀ (e : Env) (st : Store) (cache : Cache) (dir state : String) (lat lon : ℚ)
       (predDate : ℤ) (gaussP : ℚ → ℚ) (gaussH gaussF : ℕ → ℚ → ℚ)
       (m : PyObj) (c' : Cache),
      loadModel st cache dir state "LSTM" = .ok (m, c') →
      predict e st cache dir state lat lon predDate "LSTM" gaussP gaussH gaussF
        = .ok ({ predictedUsage := roundTo2 (max 0 ((baseUsage e state : ℚ) + 1 / 10 +
                   seasonalityOn e predDate + gaussP 3)),
                 modelType := "LSTM",
                 historicalData := generateHistoricalData e state 90 gaussH,
                 forecastData := generateForecastData e state predDate
                   (max 1 (predDate - e.today)).toNat gaussF,
                 featuresUsed := prepareFeatures e state lat lon predDate }, c')) ∧
    (∀ (e : Env) (st : Store) (cache : Cache) (dir state : String) (lat lon : ℚ)
       (predDate : ℤ) (gaussP : ℚ → ℚ) (gaussH gaussF : ℕ → ℚ → ℚ)
       (m : PyObj) (c' : Cache),
      loadModel st cache dir state "Prophet" = .ok (m, c') →
      predict e st cache dir state lat lon predDate "Prophet" gaussP gaussH gaussF
        = .ok ({ predictedUsage := roundTo2 (max 0 ((baseUsage e state : ℚ) + 1 / 10 +
                   seasonalityOn e predDate + gaussP 4)),
                 modelType := "Prophet",
                 historicalData := generateHistoricalData e state 90 gaussH,
                 forecastData := generateForecastData e state predDate
                   (max 1 (predDate - e.today)).toNat gaussF,
                 featuresUsed := prepareFeatures e state lat lon predDate }, c')) ∧
    (∀ (e : Env) (st : Store) (tf jl : Bool) (cache : Cache) (dir state : String)
       (lat lon : ℚ) (predDate : ℤ) (gaussP : ℚ → ℚ) (gaussH gaussF : ℕ → ℚ → ℚ)
       (m : PyObj) (c' : Cache),
      loadModelAdv st tf jl cache dir state "ARIMA" = .ok (m, c') →
      predictAdv e st tf jl cache dir state lat lon predDate "ARIMA" gaussP gaussH gaussF
        = .ok ({ predictedUsage := max 0 (roundTo2 ((baseUsage e state : ℚ) + 1 / 10 +
                   seasonalityOn e predDate + gaussP 5)),
                 modelType := "ARIMA",
                 historicalData := generateHistoricalDataAdv e state 90 gaussH,
                 forecastData := generateForecastDataAdv e state predDate
                   (max 1 (predDate - e.today)).toNat gaussF,
                 featuresUsed := prepareFeaturesAdv e state lat lon predDate }, c')) ∧
    (∀ (e : Env) (st : Store) (tf jl : Bool) (cache : Cache) (dir state : String)
       (lat lon : ℚ) (predDate : ℤ) (gaussP : ℚ → ℚ) (gaussH gaussF : ℕ → ℚ → ℚ)
       (m : PyObj) (c' : Cache),
      loadModelAdv st tf jl cache dir state "LSTM" = .ok (m, c') →
      predictAdv e st tf jl cache dir state lat lon predDate "LSTM" gaussP gaussH gaussF
        = .ok ({ predictedUsage := max 0 (roundTo2 ((baseUsage e state : ℚ) + 1 / 10 +
                   seasonalityOn e predDate + gaussP 3)),
                 modelType := "LSTM",
                 historicalData := generateHistoricalDataAdv e state 90 gaussH,
                 forecastData := generateForecastDataAdv e state predDate
                   (max 1 (predDate - e.today)).toNat gaussF,
                 featuresUsed := prepareFeaturesAdv e state lat lon predDate }, c')) ∧
    (∀ (e : Env) (st : Store) (tf jl : Bool) (cache : Cache) (dir state : String)
       (lat lon : ℚ) (predDate : ℤ) (gaussP : ℚ → ℚ) (gaussH gaussF : ℕ → ℚ → ℚ)
       (m : PyObj) (c' : Cache),
      loadModelAdv st tf jl cache dir state "Prophet" = .ok (m, c') →
      predictAdv e st tf jl cache dir state lat lon predDate "Prophet" gaussP gaussH gaussF
        = .ok ({ predictedUsage := max 0 (roundTo2 ((baseUsage e state : ℚ) + 1 / 10 +
                   seasonalityOn e predDate + gaussP 4)),
                 modelType := "Prophet",
                 historicalData := generateHistoricalDataAdv e state 90 gaussH,
                 forecastData := generateForecastDataAdv e state predDate
                   (max 1 (predDate - e.today)).toNat gaussF,
                 featuresUsed := prepareFeaturesAdv e state lat lon predDate }, c')) := by
  refine ⟨?_, ?_, ?_, ?_, ?_, ?_⟩ <;>
    intro e st
  · intro cache dir state lat lon predDate gaussP gaussH gaussF m c' hl
    unfold predict
    rw [hl]
    rfl
  · intro cache dir state lat lon predDate gaussP gaussH gaussF m c' hl
    unfold predict
    rw [hl]
    rfl
  · intro cache dir state lat lon predDate gaussP gaussH gaussF m c' hl
    unfold predict
    rw [hl]
    rfl
  · intro tf jl cache dir state lat lon predDate gaussP gaussH gaussF m c' hl
    unfold predictAdv
    rw [hl]
    rfl
  · intro tf jl cache dir state lat lon predDate gaussP gaussH gaussF m c' hl
    unfold predictAdv
    rw [hl]
    rfl
  · intro tf jl cache dir state lat lon predDate gaussP gaussH gaussF m c' hl
    unfold predictAdv
    rw [hl]
    rfl

/-- Witness for C2: concrete successful requests for each family in both
predictors produce exactly the fallback value with the branch's noise
scale. -/
theorem fallbackFamilies_point_witness :
    (∃ rc, predict envZ stAllOk [] "models" "X" 0 0 5 "ARIMA" gz gzz gzz = .ok rc ∧
      rc.1.predictedUsage = roundTo2 (max 0 ((baseUsage envZ "X" : ℚ) + 1 / 10 +
        seasonalityOn envZ 5 + gz 5))) ∧
    (∃ rc, predict envZ stAllOk [] "models" "X" 0 0 5 "LSTM" gz gzz gzz = .ok rc ∧
      rc.1.predictedUsage = roundTo2 (max 0 ((baseUsage envZ "X" : ℚ) + 1 / 10 +
        seasonalityOn envZ 5 + gz 3))) ∧
    (∃ rc, predict envZ stAllOk [] "models" "X" 0 0 5 "Prophet" gz gzz gzz = .ok rc ∧
      rc.1.predictedUsage = roundTo2 (max 0 ((baseUsage envZ "X" : ℚ) + 1 / 10 +
        seasonalityOn envZ 5 + gz 4))) ∧
    (∃ rc, predictAdv envZ stAllOk true true [] "models" "X" 0 0 5 "ARIMA" gz gzz gzz
        = .ok rc ∧
      rc.1.predictedUsage = max 0 (roundTo2 ((baseUsage envZ "X" : ℚ) + 1 / 10 +
        seasonalityOn envZ 5 + gz 5))) ∧
    (∃ rc, predictAdv envZ stAllOk true true [] "models" "X" 0 0 5 "LSTM" gz gzz gzz
        = .ok rc ∧
      rc.1.predictedUsage = max 0 (roundTo2 ((baseUsage envZ "X" : ℚ) + 1 / 10 +
        seasonalityOn envZ 5 + gz 3))) ∧
    (∃ rc, predictAdv envZ stAllOk true true [] "models" "X" 0 0 5 "Prophet" gz gzz gzz
        = .ok rc ∧
      rc.1.predictedUsage = max 0 (roundTo2 ((baseUsage envZ "X" : ℚ) + 1 / 10 +
        seasonalityOn envZ 5 + gz 4))) :=
  ⟨⟨_, fallbackFamilies_point.1 envZ stAllOk [] "models" "X" 0 0 5 gz gzz gzz _ _ rfl,
     rfl⟩,
   ⟨_, fallbackFamilies_point.2.1 envZ stAllOk [] "models" "X" 0 0 5 gz gzz gzz _ _ rfl,
     rfl⟩,
   ⟨_, fallbackFamilies_point.2.2.1 envZ stAllOk [] "models" "X" 0 0 5 gz gzz gzz _ _ rfl,
     rfl⟩,
   ⟨_, fallbackFamilies_point.2.2.2.1 envZ stAllOk true true [] "models" "X" 0 0 5
       gz gzz gzz _ _ rfl, rfl⟩,
   ⟨_, fallbackFamilies_point.2.2.2.2.1 envZ stAllOk true true [] "models" "X" 0 0 5
       gz gzz gzz _ _ rfl, rfl⟩,
   ⟨_, fallbackFamilies_point.2.2.2.2.2 envZ stAllOk true true [] "models" "X" 0 0 5
       gz gzz gzz _ _ rfl, rfl⟩⟩

theorem roundTo2_eq_of_mul (x : ℚ) (n : ℤ) (h : x * 100 = (n : ℚ)) :
    roundTo2 x = (n : ℚ) / 100 := by
  unfold roundTo2
  rw [h, round_intCast]

/-- C2 counterexample: at a concrete zero environment the ARIMA point
prediction is 100.1 (the code adds the constant trend 0.1), while the
formula of the claim (trend offset 0, i.e. no trend term) gives 100. -/
theorem fallbackFamilies_counterexample :
    puOf (predict envZ stAllOk [] "models" "X" 0 0 5 "ARIMA" gz gzz gzz) = 1001 / 10 ∧
    specFallbackPoint envZ "X" 5 (gz 5) = 100 ∧ ((1001 : ℚ) / 10 ≠ 100) := by
  have hb : (baseUsage envZ "X" : ℚ) = 100 := by norm_num [baseUsage, stateSeed, envZ]
  have hs : seasonalityOn envZ 5 = 0 := by simp [seasonalityOn, envZ]
  refine ⟨?_, ?_, by norm_num⟩
  · have h : predict envZ stAllOk [] "models" "X" 0 0 5 "ARIMA" gz gzz gzz
        = .ok ({ predictedUsage := roundTo2 (max 0 ((baseUsage envZ "X" : ℚ) + 1 / 10 +
                   seasonalityOn envZ 5 + gz 5)),
                 modelType := "ARIMA",
                 historicalData := generateHistoricalData envZ "X" 90 gzz,
                 forecastData := generateForecastData envZ "X" 5
                   (max 1 (5 - envZ.today)).toNat gzz,
                 featuresUsed := prepareFeatures envZ "X" 0 0 5 },
               [(cacheKey "X" "ARIMA", PyObj.pmodel none)]) := rfl
    rw [h]
    show roundTo2 (max 0 ((baseUsage envZ "X" : ℚ) + 1 / 10 +
      seasonalityOn envZ 5 + gz 5)) = 1001 / 10
    rw [hb, hs]
    have hg : gz 5 = 0 := rfl
    rw [hg]
    have hmax : max (0 : ℚ) (100 + 1 / 10 + 0 + 0) = 1001 / 10 := by
      rw [max_eq_right (by norm_num : (0 : ℚ) ≤ 100 + 1 / 10 + 0 + 0)]
      norm_num
    rw [hmax, roundTo2_eq_of_mul (1001 / 10) 10010 (by norm_num)]
    norm_num
  · unfold specFallbackPoint
    rw [hb, hs]
    have hg : gz 5 = 0 := rfl
    rw [hg]
    have hmax : max (0 : ℚ) (100 + 0 * (1 / 10) + 0 + 0) = 100 := by
      rw [max_eq_right (by norm_num : (0 : ℚ) ≤ 100 + 0 * (1 / 10) + 0 + 0)]
      norm_num
    rw [hmax, roundTo2_eq_of_mul 100 10000 (by norm_num)]
    norm_num

/-- C4 (corrected): for every successful request the forecast series consists
of the consecutive days 1 through N after the TARGET DATE (not after today),
where N = max(1, days between today and targetDate); it always has at least
one point, and exactly one when the target date is not after today. -/
theorem forecastSeries_shape :
    ∀ (e : Env) (st : Store) (cache : Cache) (dir state : String) (lat lon : ℚ)
      (predDate : ℤ) (mt : String) (gaussP : ℚ → ℚ) (gaussH gaussF : ℕ → ℚ → ℚ)
      (r : Response) (c' : Cache),
      predict e st cache dir state lat lon predDate mt gaussP gaussH gaussF
        = .ok (r, c') →
      r.forecastData.map Prod.fst
        = (List.range (max 1 (predDate - e.today)).toNat).map
            (fun (k : ℕ) => predDate + ((k : ℤ) + 1)) ∧
      r.forecastData.length = (max 1 (predDate - e.today)).toNat ∧
      1 ≤ r.forecastData.length ∧
      (predDate ≤ e.today → r.forecastData.length = 1) := by
  intro e st cache dir state lat lon predDate mt gaussP gaussH gaussF r c' h
  obtain ⟨-, -, -, hf, -⟩ :=
    predict_ok_fields e st cache dir state lat lon predDate mt gaussP gaussH gaussF r c' h
  have hlen : r.forecastData.length = (max 1 (predDate - e.today)).toNat := by
    rw [hf]
    unfold generateForecastData
    simp
  refine ⟨?_, hlen, ?_, ?_⟩
  · rw [hf]
    unfold generateForecastData
    rw [List.map_map]
    rfl
  · rw [hlen]
    omega
  · intro hp
    rw [hlen]
    omega

/-- Witness for C4 on a past target date: exactly one forecast point, dated
the day after the target date. -/
theorem forecastSeries_shape_witness :
    ∃ (r : Response) (c' : Cache),
      predict envZ stAllOk [] "models" "X" 0 0 (-3) "ARIMA" gz gzz gzz = .ok (r, c') ∧
      1 ≤ r.forecastData.length ∧ r.forecastData.length = 1 :=
  ⟨_, _, rfl,
   (forecastSeries_shape envZ stAllOk [] "models" "X" 0 0 (-3) "ARIMA" gz gzz gzz
      _ _ rfl).2.2.1,
   (forecastSeries_shape envZ stAllOk [] "models" "X" 0 0 (-3) "ARIMA" gz gzz gzz
      _ _ rfl).2.2.2 (by decide)⟩

/-- C4 counterexample: with today = 0 and target date 5, the forecast dates
are 6..10 (days after the target date), not the days 1..5 after today that
the claim describes. -/
theorem forecastSeries_counterexample :
    forecastDatesOf (predict envZ stAllOk [] "models" "X" 0 0 5 "ARIMA" gz gzz gzz)
      = [6, 7, 8, 9, 10] ∧
    (List.range (max 1 ((5 : ℤ) - envZ.today)).toNat).map
        (fun (k : ℕ) => envZ.today + ((k : ℤ) + 1))
      = [1, 2, 3, 4, 5] ∧
    ([6, 7, 8, 9, 10] : List ℤ) ≠ [1, 2, 3, 4, 5] :=
  ⟨by decide, by decide, by decide⟩

/-- C8: every successful response of `ModelPredictor.predict` has a
non-negative predicted usage equal to its own 2-decimal rounding, and every
historical and forecast series point usage is non-negative and equal to its
own 2-decimal rounding. -/
theorem response_rounded_nonneg :
    ∀ (e : Env) (st : Store) (cache : Cache) (dir state : String) (lat lon : ℚ)
      (predDate : ℤ) (mt : String) (gaussP : ℚ → ℚ) (gaussH gaussF : ℕ → ℚ → ℚ)
      (r : Response) (c' : Cache),
      predict e st cache dir state lat lon predDate mt gaussP gaussH gaussF
        = .ok (r, c') →
      (0 ≤ r.predictedUsage ∧ roundTo2 r.predictedUsage = r.predictedUsage) ∧
      (∀ p ∈ r.historicalData, 0 ≤ p.2 ∧ roundTo2 p.2 = p.2) ∧
      (∀ p ∈ r.forecastData, 0 ≤ p.2 ∧ roundTo2 p.2 = p.2) := by
  intro e st cache dir state lat lon predDate mt gaussP gaussH gaussF r c' h
  obtain ⟨⟨v, hv⟩, -, hh, hf, -⟩ :=
    predict_ok_fields e st cache dir state lat lon predDate mt gaussP gaussH gaussF r c' h
  refine ⟨⟨?_, ?_⟩, ?_, ?_⟩
  · rw [hv]
    exact roundTo2_nonneg (le_max_left _ _)
  · rw [hv, roundTo2_idem]
  · intro p hp
    rw [hh] at hp
    unfold generateHistoricalData at hp
    simp only [List.mem_map, List.mem_range] at hp
    obtain ⟨k, hk, hpk⟩ := hp
    rw [← hpk]
    exact ⟨roundTo2_nonneg (le_max_left _ _), roundTo2_idem _⟩
  · intro p hp
    rw [hf] at hp
    unfold generateForecastData at hp
    simp only [List.mem_map, List.mem_range] at hp
    obtain ⟨k, hk, hpk⟩ := hp
    rw [← hpk]
    exact ⟨roundTo2_nonneg (le_max_left _ _), roundTo2_idem _⟩

/-- Witness for C8 on a concrete successful request. -/
theorem response_rounded_nonneg_witness :
    ∃ (r : Response) (c' : Cache),
      predict envZ stAllOk [] "models" "X" 0 0 9 "Prophet" gz gzz gzz = .ok (r, c') ∧
      0 ≤ r.predictedUsage ∧ roundTo2 r.predictedUsage = r.predictedUsage :=
  ⟨_, _, rfl,
   (response_rounded_nonneg envZ stAllOk [] "models" "X" 0 0 9 "Prophet" gz gzz gzz
      _ _ rfl).1.1,
   (response_rounded_nonneg envZ stAllOk [] "models" "X" 0 0 9 "Prophet" gz gzz gzz
      _ _ rfl).1.2⟩

/-- C1 (corrected): for an unrecognized model family, `predict` always fails
— no historical or forecast data is emitted and the CLI boundary prints a
single error object and exits 1. But the error is the UnsupportedModelFamily
`ValueError` only when the load step succeeds (artifact present, or cached);
since the load runs before the dispatch, a missing artifact surfaces the
ArtifactNotFound message instead (see the counterexample). -/
theorem unsupportedFamily :
    ∀ (e : Env) (st : Store) (cache : Cache) (dir state : String) (lat lon : ℚ)
      (predDate : ℤ) (mt : String) (gaussP : ℚ → ℚ) (gaussH gaussF : ℕ → ℚ → ℚ),
      mt ≠ "ARIMA" → mt ≠ "XGBoost" → mt ≠ "LSTM" → mt ≠ "Prophet" →
      (∃ msg, predict e st cache dir state lat lon predDate mt gaussP gaussH gaussF
        = .error msg) ∧
      (∀ (m : PyObj) (c' : Cache),
        loadModel st cache dir state mt = .ok (m, c') →
        predict e st cache dir state lat lon predDate mt gaussP gaussH gaussF
          = .error ("Prediction failed: " ++ ("Unsupported model type: " ++ mt))) ∧
      (∀ (tf jl : Bool),
        (runMainAdv e st tf jl state lat lon predDate mt gaussP gaussH gaussF).2 = 1 ∧
        ∃ msg, (runMainAdv e st tf jl state lat lon predDate mt gaussP gaussH gaussF).1
          = CliOut.failure msg) := by
  intro e st cache dir state lat lon predDate mt gaussP gaussH gaussF h1 h2 h3 h4
  have hpp : ∀ (m : PyObj) (fts : List ℚ),
      pointPrediction e state predDate m fts mt gaussP
        = .error ("Unsupported model type: " ++ mt) := by
    intro m fts
    unfold pointPrediction
    rw [if_neg h1, if_neg h2, if_neg h3, if_neg h4]
  have hppA : ∀ (m : PyObj) (fts : List ℚ),
      pointPredictionAdv e state predDate m fts mt gaussP
        = .error ("Unsupported model type: " ++ mt) := by
    intro m fts
    unfold pointPredictionAdv
    rw [if_neg h1, if_neg h2, if_neg h3, if_neg h4]
  have hko : ∀ (m : PyObj) (c' : Cache),
      loadModel st cache dir state mt = .ok (m, c') →
      predict e st cache dir state lat lon predDate mt gaussP gaussH gaussF
        = .error ("Prediction failed: " ++ ("Unsupported model type: " ++ mt)) := by
    intro m c' hL
    unfold predict
    rw [hL]
    dsimp only []
    rw [hpp m (prepareFeatures e state lat lon predDate)]
  have hpredict : ∃ msg,
      predict e st cache dir state lat lon predDate mt gaussP gaussH gaussF
        = .error msg := by
    cases hL : loadModel st cache dir state mt with
    | error msg =>
      refine ⟨"Prediction failed: " ++ msg, ?_⟩
      unfold predict
      rw [hL]
    | ok mc =>
      obtain ⟨m, c⟩ := mc
      exact ⟨"Prediction failed: " ++ ("Unsupported model type: " ++ mt), hko m c hL⟩
  refine ⟨hpredict, hko, ?_⟩
  intro tf jl
  have hadv : ∃ msg,
      predictAdv e st tf jl [] "models" state lat lon predDate mt gaussP gaussH gaussF
        = .error msg := by
    cases hL : loadModelAdv st tf jl [] "models" state mt with
    | error msg =>
      refine ⟨"Prediction failed: " ++ msg, ?_⟩
      unfold predictAdv
      rw [hL]
    | ok mc =>
      obtain ⟨m, c⟩ := mc
      refine ⟨"Prediction failed: " ++ ("Unsupported model type: " ++ mt), ?_⟩
      unfold predictAdv
      rw [hL]
      dsimp only []
      rw [hppA m (prepareFeaturesAdv e state lat lon predDate)]
  obtain ⟨msg, hmsg⟩ := hadv
  constructor
  · unfold runMainAdv
    rw [hmsg]
  · refine ⟨msg, ?_⟩
    unfold runMainAdv
    rw [hmsg]

/-- Witness for C1 with the family "Unsupported" at concrete stores. -/
theorem unsupportedFamily_witness :
    (∃ msg, predict envZ stAllOk [] "models" "X" 0 0 5 "Unsupported" gz gzz gzz
      = .error msg) ∧
    predict envZ stAllOk [] "models" "X" 0 0 5 "Unsupported" gz gzz gzz
      = .error ("Prediction failed: " ++ ("Unsupported model type: " ++ "Unsupported")) ∧
    (runMainAdv envZ stAllOk true true "X" 0 0 5 "Unsupported" gz gzz gzz).2 = 1 :=
  ⟨(unsupportedFamily envZ stAllOk [] "models" "X" 0 0 5 "Unsupported" gz gzz gzz
      (by decide) (by decide) (by decide) (by decide)).1,
   (unsupportedFamily envZ stAllOk [] "models" "X" 0 0 5 "Unsupported" gz gzz gzz
      (by decide) (by decide) (by decide) (by decide)).2.1 _ _ rfl,
   ((unsupportedFamily envZ stAllOk [] "models" "X" 0 0 5 "Unsupported" gz gzz gzz
      (by decide) (by decide) (by decide) (by decide)).2.2 true true).1⟩

/-- C1 counterexample: with the artifact absent, a request for the family
"Unsupported" fails with the ArtifactNotFound message, not the
UnsupportedModelFamily one: the error class depends on the store. -/
theorem unsupportedFamily_counterexample :
    predict envZ stNoFile [] "models" "X" 0 0 5 "Unsupported" gz gzz gzz
      = .error "Prediction failed: Model not found: models/X_unsupported_model.joblib" ∧
    ("Prediction failed: Model not found: models/X_unsupported_model.joblib"
      ≠ "Prediction failed: " ++ ("Unsupported model type: " ++ "Unsupported")) :=
  ⟨rfl, by decide⟩

end EDP
